import Mathlib

/-!
Verification of the request-translation and error-mapping core of the
S3WebServer program (src/main.go): path resolution with directory-index
fallback, method dispatch to the four store operations, and translation of
store outcomes into HTTP responses.

Modelling conventions, all uniform across the development:
* Byte strings (object bodies, messages) are Lean `String`s.
* `http.Error` of the Go standard library sets the two diagnostic headers,
  records the status and writes the message followed by a newline; the model
  keeps the headers, the status and the message and elides the single
  trailing newline added by `Fprintln`, a framing detail of the transport.
* The gin response writer records the status on `WriteHeader` and flushes
  headers only on the first body write, so headers set after `WriteHeader`
  but before the first write are effective; the model mirrors this.
* The AWS S3 client is an external collaborator; its operations are modelled
  from their documented behaviour (`s3GetObject`, `s3HeadObject`,
  `s3PutObject`, `s3DeleteObject`) over an association-list store, and every
  operation is logged in a call trace so that "no store call is issued" is
  expressible.
-/

namespace S3WebServer

/-- A typed AWS error as exposed by `awserr.Error`: an error code, a message,
and an optional underlying cause (`OrigErr`). -/
structure AwsError where
  code : String
  message : String
  origErr : Option String
deriving Repr, DecidableEq

/-- An error value reaching `handleHTTPException`: either a typed AWS error
(the `awserr.Error` type assertion succeeds) or a plain Go error carrying
only a message (the assertion fails). -/
inductive GoError where
  | awsErr (e : AwsError)
  | genericErr (message : String)
deriving Repr, DecidableEq

/-- An object held by the backing store, with the metadata surfaced by the
S3 responses used in `main.go`: body bytes, Content-Type, Content-Length,
the formatted Last-Modified time, and the ETag. -/
structure S3Object where
  body : String
  contentType : String
  contentLength : Int
  lastModified : String
  etag : String
deriving Repr, DecidableEq

/-- One network call issued to the backing store. -/
inductive StoreCall where
  | headOp (bucket key : String) (ifNoneMatch : Option String)
  | getOp (bucket key : String)
  | putOp (bucket key body : String)
  | deleteOp (bucket key : String)
deriving Repr, DecidableEq

/-- The storage key a call addresses. -/
def StoreCall.key : StoreCall → String
  | headOp _ k _ => k
  | getOp _ k => k
  | putOp _ k _ => k
  | deleteOp _ k => k

/-- The backing store: its objects (an association list from key to object)
together with the trace of calls issued so far. -/
structure S3State where
  objects : List (String × S3Object)
  calls : List StoreCall
deriving Repr, DecidableEq

/-- Key lookup in the store contents. -/
def s3Find (objects : List (String × S3Object)) (key : String) : Option S3Object :=
  (objects.find? (fun p => p.1 = key)).map (fun p => p.2)

/-- Modelled external collaborator: `GetObject` of the AWS S3 client.
Returns the object when the key exists, otherwise a typed `NoSuchKey`
failure; the call is logged either way. -/
def s3GetObject (st : S3State) (bucket key : String) :
    Except GoError S3Object × S3State :=
  let st2 : S3State := { st with calls := st.calls ++ [StoreCall.getOp bucket key] }
  match s3Find st.objects key with
  | some o => (Except.ok o, st2)
  | none =>
      (Except.error (GoError.awsErr ⟨"NoSuchKey", "The specified key does not exist.", none⟩), st2)

/-- Modelled external collaborator: `HeadObject` of the AWS S3 client, with
the optional `IfNoneMatch` conditional token. A missing key is a typed
`NotFound` failure; a token equal to the stored ETag is a typed
`NotModified` failure; otherwise the object metadata is returned. -/
def s3HeadObject (st : S3State) (bucket key : String) (ifNoneMatch : Option String) :
    Except GoError S3Object × S3State :=
  let st2 : S3State := { st with calls := st.calls ++ [StoreCall.headOp bucket key ifNoneMatch] }
  match s3Find st.objects key with
  | none => (Except.error (GoError.awsErr ⟨"NotFound", "Not Found", none⟩), st2)
  | some o =>
      match ifNoneMatch with
      | some t =>
          if t = o.etag then
            (Except.error (GoError.awsErr ⟨"NotModified", "Not Modified", none⟩), st2)
          else (Except.ok o, st2)
      | none => (Except.ok o, st2)

/-- Modelled external collaborator: the opaque version tag the store computes
for uploaded content (S3 derives it from the bytes). -/
def s3ComputeEtag (body : String) : String :=
  "\x22" ++ toString body.length ++ "-" ++ body ++ "\x22"

/-- Modelled external collaborator: `PutObject` of the AWS S3 client. Stores
the bytes under the key, returns the version tag, logs the call. -/
def s3PutObject (st : S3State) (bucket key body : String) :
    Except GoError String × S3State :=
  let etag := s3ComputeEtag body
  let newObj : S3Object :=
    { body := body, contentType := "binary/octet-stream",
      contentLength := Int.ofNat body.length, lastModified := "stored", etag := etag }
  (Except.ok etag,
    { objects := (key, newObj) :: st.objects.filter (fun p => ¬(p.1 = key)),
      calls := st.calls ++ [StoreCall.putOp bucket key body] })

/-- Modelled external collaborator: `DeleteObject` of the AWS S3 client.
Deleting succeeds whether or not the key exists; the call is logged. -/
def s3DeleteObject (st : S3State) (bucket key : String) :
    Except GoError Unit × S3State :=
  (Except.ok (),
    { objects := st.objects.filter (fun p => ¬(p.1 = key)),
      calls := st.calls ++ [StoreCall.deleteOp bucket key] })

/-- The application configuration (`webConfig` in the source). -/
structure Config where
  port : String
  s3bucket : String
  awsRegion : String
  homepage : String
deriving Repr, DecidableEq

/-- An inbound HTTP request as the handlers see it: method, URL path,
request headers, and the outcome of reading the body (only consulted by
PUT; `Except.error msg` models a local read failure). -/
structure Request where
  method : String
  urlPath : String
  headers : List (String × String)
  body : Except String String

/-- Request-header lookup, `r.Header.Get(name)`: first value under the
name, or the empty string. Go canonicalizes header names; the model uses
the exact name. -/
def headerGet (hs : List (String × String)) (name : String) : String :=
  match hs.find? (fun p => p.1 = name) with
  | some p => p.2
  | none => ""

/-- The response writer, with gin semantics: a recorded status (default
200), a header map, whether the first body write has happened (after which
status and headers are frozen on the wire), and the accumulated body. -/
structure ResponseWriter where
  status : Nat
  headers : List (String × String)
  bodyWritten : Bool
  body : String
deriving Repr, DecidableEq

/-- A fresh writer, as each request receives. -/
def ResponseWriter.init : ResponseWriter :=
  { status := 200, headers := [], bodyWritten := false, body := "" }

/-- `w.Header().Set(name, value)`: replace any previous value. Headers set
after the first body write never reach the wire. -/
def ResponseWriter.setHeader (w : ResponseWriter) (name value : String) : ResponseWriter :=
  if w.bodyWritten then w
  else { w with headers := w.headers.filter (fun p => ¬(p.1 = name)) ++ [(name, value)] }

/-- Header lookup on the response writer. -/
def ResponseWriter.getHeader (w : ResponseWriter) (name : String) : Option String :=
  (w.headers.find? (fun p => p.1 = name)).map (fun p => p.2)

/-- `w.WriteHeader(code)` under gin: records the status unless the response
has already been written. -/
def ResponseWriter.writeHeader (w : ResponseWriter) (code : Nat) : ResponseWriter :=
  if w.bodyWritten then w else { w with status := code }

/-- `w.Write(bytes)`: appends to the body and freezes status and headers. -/
def ResponseWriter.write (w : ResponseWriter) (s : String) : ResponseWriter :=
  { w with body := w.body ++ s, bodyWritten := true }

/-- `http.Error(w, msg, code)` of the Go standard library: sets the two
diagnostic headers, records the status, writes the message (the trailing
newline `Fprintln` adds is elided uniformly, see the header comment). -/
def httpError (w : ResponseWriter) (msg : String) (code : Nat) : ResponseWriter :=
  let w1 := w.setHeader "Content-Type" "text/plain; charset=utf-8"
  let w2 := w1.setHeader "X-Content-Type-Options" "nosniff"
  let w3 := w2.writeHeader code
  w3.write msg

/-- A control byte in the sense of net/url (`stringContainsCTLByte`):
below space, or delete. -/
def isCtlChar (c : Char) : Bool := c.toNat < 32 || c.toNat == 127

/-- A hexadecimal digit in the sense of net/url `ishex`. -/
def isHexChar (c : Char) : Bool :=
  c.isDigit || (Char.ofNat 97 ≤ c && c ≤ Char.ofNat 102)
    || (Char.ofNat 65 ≤ c && c ≤ Char.ofNat 70)

/-- Whether every percent sign is followed by two hex digits, as net/url
`unescape` requires. -/
def validEscapes : List Char → Bool
  | [] => true
  | c :: rest =>
      if c = '%' then
        match rest with
        | a :: b :: t => isHexChar a && isHexChar b && validEscapes t
        | _ => false
      else validEscapes rest

/-- The net/url `validUserinfo` character class: ASCII alphanumerics and
the listed punctuation, nothing else. -/
def validUserinfo (l : List Char) : Bool :=
  l.all (fun r => r.isAlpha || r.isDigit ||
    ['-', '.', '_', ':', '~', '!', '$', '&', '\x27', '(', ')', '*', '+',
      ',', ';', '=', '%', '@'].contains r)

/-- The characters strictly before the first occurrence of `c` (the whole
list when `c` is absent). -/
def takeUntilChar (c : Char) : List Char → List Char
  | [] => []
  | x :: xs => if x = c then [] else x :: takeUntilChar c xs

/-- The characters from the first occurrence of `c` on, inclusive (empty
when `c` is absent). -/
def dropUntilChar (c : Char) : List Char → List Char
  | [] => []
  | x :: xs => if x = c then x :: xs else dropUntilChar c xs

/-- The characters strictly after the first occurrence of `c` (empty when
`c` is absent). -/
def dropThroughChar (c : Char) : List Char → List Char
  | [] => []
  | x :: xs => if x = c then xs else dropThroughChar c xs

/-- Split at the last occurrence of `c`: the parts strictly before and
strictly after it, or `none` when `c` is absent. -/
def lastSplitAt (c : Char) : List Char → Option (List Char × List Char)
  | [] => none
  | x :: xs =>
      match lastSplitAt c xs with
      | some (pre, post) => some (x :: pre, post)
      | none => if x = c then some ([], xs) else none

/-- Split into the segments between separator characters (Go
`strings.Split` on the separator). -/
def splitOnSlash : List Char → List (List Char)
  | [] => [[]]
  | c :: rest =>
      let r := splitOnSlash rest
      if c = '/' then [] :: r
      else
        match r with
        | h :: t => (c :: h) :: t
        | [] => [[c]]

/-- Join segments with separator characters. -/
def joinSlash : List (List Char) → List Char
  | [] => []
  | [s] => s
  | s :: rest => s ++ '/' :: joinSlash rest

/-- Modelled from Go `path.Clean`: drop empty and dot segments, resolve
dot-dot segments against the preceding segment (dropping them at the root
of a rooted path, keeping unresolvable ones in a relative path), return a
dot for an empty result. -/
def pathClean (s : String) : String :=
  if s.data.isEmpty then "."
  else
    let rooted := s.data.take 1 = ['/']
    let segs := (splitOnSlash s.data).filter (fun seg => ¬ (seg = [] ∨ seg = ['.']))
    let stack := segs.foldl (fun st seg =>
      if seg = ['.', '.'] then
        match st with
        | [] => if rooted then [] else [['.', '.']]
        | top :: rest => if top = ['.', '.'] then seg :: st else rest
      else seg :: st) ([] : List (List Char))
    let out := joinSlash stack.reverse
    if rooted then ⟨'/' :: out⟩
    else if out = [] then "." else ⟨out⟩

/-- The UTF-8 bytes of a character. -/
def charUtf8Bytes (c : Char) : List Nat :=
  let v := c.toNat
  if v < 128 then [v]
  else if v < 2048 then [192 + v / 64, 128 + v % 64]
  else if v < 65536 then [224 + v / 4096, 128 + (v / 64) % 64, 128 + v % 64]
  else [240 + v / 262144, 128 + (v / 4096) % 64, 128 + (v / 64) % 64, 128 + v % 64]

/-- A single lowercase hexadecimal digit. -/
def hexDigitChar (n : Nat) : Char :=
  if n < 10 then Char.ofNat (48 + n) else Char.ofNat (87 + n)

/-- Two lowercase hexadecimal digits of a byte. -/
def byteHex (b : Nat) : String := ⟨[hexDigitChar (b / 16), hexDigitChar (b % 16)]⟩

/-- Modelled from net/http `hexEscapeNonASCII`: every byte outside ASCII
is written as a percent sign and its lowercase hex digits; ASCII bytes
pass through. -/
def hexEscapeNonAscii (s : String) : String :=
  String.join (s.data.map (fun c =>
    if c.toNat < 128 then String.singleton c
    else String.join ((charUtf8Bytes c).map (fun b => "%" ++ byteHex b))))

/-- Whether `http.Redirect` cleans up the target, i.e. whether `url.Parse`
succeeds with empty scheme and empty host, modelled for targets beginning
with a separator (so no scheme is possible). Following net/url: the part
before the first fragment mark must be free of control bytes; the fragment
must have valid percent escapes; the part before the first query mark
either carries a double-separator authority prefix, in which case the host
(the authority after its last at sign, port included) must be empty, the
userinfo must pass the net/url character class and escape checks and the
following path must have valid escapes, or it is itself the path and must
have valid escapes. A nonempty host and a parse failure both leave the
target untouched, so they need not be distinguished. -/
def cleanupApplies (url : List Char) : Bool :=
  let u := takeUntilChar '#' url
  let frag := dropThroughChar '#' url
  if u.any isCtlChar then false
  else if !(validEscapes frag) then false
  else
    let rest := takeUntilChar '?' u
    if rest.take 2 = ['/', '/'] then
      let after := rest.drop 2
      let auth := takeUntilChar '/' after
      let pathPart := dropUntilChar '/' after
      (match lastSplitAt '@' auth with
       | none => auth.isEmpty
       | some (userinfo, hostport) =>
           hostport.isEmpty && validUserinfo userinfo && validEscapes userinfo) &&
      validEscapes pathPart
    else
      validEscapes rest

/-- The Location value `http.Redirect` computes for a target beginning
with a separator: when the clean-up guard holds, the query from the first
query mark is split off, the path is cleaned preserving a trailing
separator, and the query reattached; otherwise the target is untouched.
Either way non-ASCII bytes are percent-escaped. -/
def redirectLocation (url : String) : String :=
  let url2 :=
    if cleanupApplies url.data then
      let upath : String := ⟨takeUntilChar '?' url.data⟩
      let query : String := ⟨dropUntilChar '?' url.data⟩
      let trailing := upath.takeRight 1 = "/"
      let cleaned := pathClean upath
      let cleaned2 :=
        if trailing ∧ ¬ (cleaned.takeRight 1 = "/") then cleaned ++ "/" else cleaned
      cleaned2 ++ query
    else url
  hexEscapeNonAscii url2

/-- `http.Redirect(w, r, url, code)` as invoked by the PUT handler: the
target already starts with a separator so the make-relative-absolute
branch is dead, and since the method is PUT the GET-only HTML body and
Content-Type branches are dead, so the effect is setting the Location
header to the cleaned-up target and recording the status. -/
def httpRedirect (w : ResponseWriter) (url : String) (code : Nat) : ResponseWriter :=
  (w.setHeader "Location" (redirectLocation url)).writeHeader code

/-- `handleHTTPException(path, w, err)` from src/main.go lines 231 - 258:
classifies an error into a response, writes it, and returns the error
unchanged. A `nil` error writes nothing. -/
def handleHTTPException (path : String) (w : ResponseWriter) (err : Option GoError) :
    ResponseWriter × Option GoError :=
  match err with
  | none => (w, none)
  | some e =>
      match e with
      | GoError.awsErr a =>
          let w2 :=
            if a.code = "MissingContentLength" then
              httpError w "Bad Request" 400
            else if a.code = "NotModified" then
              httpError w "Object not modified" 304
            else if a.code = "NoSuchKey" ∨ a.code = "NotFound" then
              httpError w ("Path \x27" ++ path ++ "\x27 not found: " ++ a.message) 404
            else
              let cause :=
                match a.origErr with
                | some c => " (Cause: " ++ c ++ ")"
                | none => ""
              httpError w
                ("An internal error occurred: " ++ a.code ++ " = " ++ a.message ++ cause) 500
          (w2, some e)
      | GoError.genericErr msg =>
          (httpError w ("An internal error occurred: " ++ msg) 500, some e)

/-- `serveGetS3File` from src/main.go lines 139 - 157. -/
def serveGetS3File (cfg : Config) (req : Request) (w : ResponseWriter) (st : S3State) :
    ResponseWriter × S3State :=
  let filePath := req.urlPath.drop 1
  match s3GetObject st cfg.s3bucket filePath with
  | (Except.error e, st2) => ((handleHTTPException filePath w (some e)).1, st2)
  | (Except.ok resp, st2) =>
      let w0 := (handleHTTPException filePath w none).1
      let w1 := w0.writeHeader 200
      let w2 := w1.setHeader "Content-Type" resp.contentType
      let w3 := w2.setHeader "Last-Modified" resp.lastModified
      let w4 := w3.setHeader "Etag" resp.etag
      let w5 := w4.setHeader "Content-Length" (toString resp.contentLength)
      (w5.write resp.body, st2)

/-- `serveHeadS3File` from src/main.go lines 119 - 136. Note the
conditional token is read from the request header named `ETag`. -/
def serveHeadS3File (cfg : Config) (req : Request) (w : ResponseWriter) (st : S3State) :
    ResponseWriter × S3State :=
  let filePath := req.urlPath.drop 1
  let etag := headerGet req.headers "ETag"
  let ifNoneMatch : Option String := if etag = "" then none else some etag
  match s3HeadObject st cfg.s3bucket filePath ifNoneMatch with
  | (Except.error e, st2) => ((handleHTTPException filePath w (some e)).1, st2)
  | (Except.ok resp, st2) =>
      let w0 := (handleHTTPException filePath w none).1
      let w1 := w0.setHeader "Content-Type" resp.contentType
      let w2 := w1.setHeader "Content-Length" (toString resp.contentLength)
      let w3 := w2.setHeader "Last-Modified" resp.lastModified
      let w4 := w3.setHeader "Etag" resp.etag
      (w4, st2)

/-- `servePutS3File` from src/main.go lines 160 - 182: read the body (a
local failure is a plain Go error handled before any store call), put the
bytes, set the ETag header from the store response and redirect to
`"/" + key` with status 201. -/
def servePutS3File (cfg : Config) (req : Request) (w : ResponseWriter) (st : S3State) :
    ResponseWriter × S3State :=
  let filePath := req.urlPath.drop 1
  match req.body with
  | Except.error msg =>
      ((handleHTTPException filePath w (some (GoError.genericErr msg))).1, st)
  | Except.ok b =>
      let w0 := (handleHTTPException filePath w none).1
      match s3PutObject st cfg.s3bucket filePath b with
      | (Except.error e, st2) => ((handleHTTPException filePath w0 (some e)).1, st2)
      | (Except.ok etag, st2) =>
          let w1 := (handleHTTPException filePath w0 none).1
          let w2 := w1.setHeader "ETag" etag
          (httpRedirect w2 ("/" ++ filePath) 201, st2)

/-- `serveDeleteS3File` from src/main.go lines 185 - 197. -/
def serveDeleteS3File (cfg : Config) (req : Request) (w : ResponseWriter) (st : S3State) :
    ResponseWriter × S3State :=
  let filePath := req.urlPath.drop 1
  match s3DeleteObject st cfg.s3bucket filePath with
  | (Except.error e, st2) => ((handleHTTPException filePath w (some e)).1, st2)
  | (Except.ok _, st2) =>
      let w0 := (handleHTTPException filePath w none).1
      (w0.writeHeader 204, st2)

/-- The method switch at the end of `methodHandler` (src/main.go
lines 216 - 227). -/
def dispatchMethod (cfg : Config) (req : Request) (w : ResponseWriter) (st : S3State) :
    ResponseWriter × S3State :=
  if req.method = "GET" then serveGetS3File cfg req w st
  else if req.method = "PUT" then servePutS3File cfg req w st
  else if req.method = "DELETE" then serveDeleteS3File cfg req w st
  else if req.method = "HEAD" then serveHeadS3File cfg req w st
  else (httpError w ("Method " ++ req.method ++ " not supported") 405, st)

/-- `methodHandler` from src/main.go lines 200 - 228: strip the leading
separator; an empty or directory-like candidate either fails with 400 when
no homepage is configured or extends the URL path with the homepage; then
dispatch on the method. -/
def methodHandler (cfg : Config) (req : Request) (w : ResponseWriter) (st : S3State) :
    ResponseWriter × S3State :=
  let path := req.urlPath.drop 1
  if path = "" ∨ path.takeRight 1 = "/" then
    if cfg.homepage = "" then
      (httpError w "Path must be provided" 400, st)
    else
      dispatchMethod cfg { req with urlPath := req.urlPath ++ cfg.homepage } w st
  else
    dispatchMethod cfg req w st

/-- The Path Resolver contract of the spec (section 4.1), extracted from
the resolution prefix of `methodHandler`: the resolved storage key together
with the fallback flag, or the bad-request message and status. -/
def resolvePath (urlPath homepage : String) : Except (String × Nat) (String × Bool) :=
  let path := urlPath.drop 1
  if path = "" ∨ path.takeRight 1 = "/" then
    if homepage = "" then Except.error ("Path must be provided", 400)
    else Except.ok ((urlPath ++ homepage).drop 1, true)
  else Except.ok (path, false)

/-! ### Helper lemmas (shared) -/

/-- Stripping the leading separator from a path of the form `"/" ++ p`
with a suffix appended yields `p` with the suffix appended. -/
theorem drop_one_slash_append (p h : String) :
    ((("/" ++ p) : String) ++ h).drop 1 = p ++ h := by
  rw [String.drop_eq]
  apply String.ext
  simp [String.data_append]

/-- Stripping the leading separator from `"/" ++ p` yields `p`. -/
theorem drop_one_slash (p : String) : (("/" : String) ++ p).drop 1 = p := by
  rw [String.drop_eq]
  apply String.ext
  simp [String.data_append]

/-- On a writer whose body is not yet written, `http.Error` records the
requested status. -/
theorem httpError_status (w : ResponseWriter) (msg : String) (code : Nat)
    (h : w.bodyWritten = false) : (httpError w msg code).status = code := by
  simp [httpError, ResponseWriter.setHeader, ResponseWriter.writeHeader,
    ResponseWriter.write, h]

/-- On a writer whose body is not yet written, `http.Error` appends exactly
its message to the body. -/
theorem httpError_body (w : ResponseWriter) (msg : String) (code : Nat)
    (h : w.bodyWritten = false) : (httpError w msg code).body = w.body ++ msg := by
  simp [httpError, ResponseWriter.setHeader, ResponseWriter.writeHeader,
    ResponseWriter.write, h]

/-- The GET handler always issues exactly one store call: a get on the
stripped path. -/
theorem serveGet_calls (cfg : Config) (r : Request) (w : ResponseWriter) (s : S3State) :
    (serveGetS3File cfg r w s).2.calls
      = s.calls ++ [StoreCall.getOp cfg.s3bucket (r.urlPath.drop 1)] := by
  cases hf : s3Find s.objects (r.urlPath.drop 1) <;>
    simp [serveGetS3File, s3GetObject, hf]

/-- The state `HeadObject` returns is the input state with the head call
logged, whatever the outcome. -/
theorem s3HeadObject_snd (st : S3State) (bucket key : String) (tok : Option String) :
    (s3HeadObject st bucket key tok).2
      = { st with calls := st.calls ++ [StoreCall.headOp bucket key tok] } := by
  simp only [s3HeadObject]
  cases s3Find st.objects key with
  | none => rfl
  | some o =>
      cases tok with
      | none => rfl
      | some t => by_cases h : t = o.etag <;> simp [h]

/-- The HEAD handler passes the store state through `HeadObject`
unchanged apart from the logged call. -/
theorem serveHead_snd (cfg : Config) (r : Request) (w : ResponseWriter) (s : S3State) :
    (serveHeadS3File cfg r w s).2
      = (s3HeadObject s cfg.s3bucket (r.urlPath.drop 1)
          (if headerGet r.headers "ETag" = "" then none
           else some (headerGet r.headers "ETag"))).2 := by
  rcases hp : s3HeadObject s cfg.s3bucket (r.urlPath.drop 1)
      (if headerGet r.headers "ETag" = "" then none
       else some (headerGet r.headers "ETag")) with ⟨res, st2⟩
  cases res <;> simp [serveHeadS3File, hp]

/-- The HEAD handler always issues exactly one store call: a head on the
stripped path, carrying the token taken from the request's ETag header. -/
theorem serveHead_calls (cfg : Config) (r : Request) (w : ResponseWriter) (s : S3State) :
    (serveHeadS3File cfg r w s).2.calls
      = s.calls ++ [StoreCall.headOp cfg.s3bucket (r.urlPath.drop 1)
          (if headerGet r.headers "ETag" = "" then none
           else some (headerGet r.headers "ETag"))] := by
  rw [serveHead_snd, s3HeadObject_snd]

/-- The DELETE handler always issues exactly one store call: a delete on
the stripped path. -/
theorem serveDelete_calls (cfg : Config) (r : Request) (w : ResponseWriter) (s : S3State) :
    (serveDeleteS3File cfg r w s).2.calls
      = s.calls ++ [StoreCall.deleteOp cfg.s3bucket (r.urlPath.drop 1)] := by
  simp [serveDeleteS3File, s3DeleteObject]

/-- Every store call the PUT handler issues (it issues none when the body
read fails) addresses the stripped path. -/
theorem servePut_calls_key (cfg : Config) (r : Request) (w : ResponseWriter) (s : S3State) :
    ∀ c, c ∈ (servePutS3File cfg r w s).2.calls →
      c ∈ s.calls ∨ StoreCall.key c = r.urlPath.drop 1 := by
  intro c hc
  cases hb : r.body with
  | error m =>
      simp [servePutS3File, hb] at hc
      exact Or.inl hc
  | ok b =>
      simp [servePutS3File, hb, s3PutObject] at hc
      rcases hc with hc | hc
      · exact Or.inl hc
      · subst hc
        exact Or.inr rfl

/-! ### Claim theorems -/

/-- The status the (amended) section 4.4 classification assigns to a
backing-store failure. -/
def specStatusOf : GoError → Nat
  | GoError.awsErr a =>
      if a.code = "NotModified" then 304
      else if a.code = "NoSuchKey" ∨ a.code = "NotFound" then 404
      else if a.code = "MissingContentLength" then 400
      else 500
  | GoError.genericErr _ => 500

/-- The body the (amended) section 4.4 classification assigns to a
backing-store failure: `NotModified` and `MissingContentLength` carry fixed
texts, not-found failures carry the quoted path and message, every other
typed failure carries the internal-error text with the cause clause exactly
when a cause is present, and non-store failures carry the internal-error
text with just the message. -/
def specBodyOf (path : String) : GoError → String
  | GoError.awsErr a =>
      if a.code = "NotModified" then "Object not modified"
      else if a.code = "NoSuchKey" ∨ a.code = "NotFound" then
        "Path \x27" ++ path ++ "\x27 not found: " ++ a.message
      else if a.code = "MissingContentLength" then "Bad Request"
      else
        "An internal error occurred: " ++ a.code ++ " = " ++ a.message ++
          (match a.origErr with
           | some c => " (Cause: " ++ c ++ ")"
           | none => "")
  | GoError.genericErr m => "An internal error occurred: " ++ m

/-- C1: for every GET request whose key exists in the backing store, the
response has status 200, carries Content-Type, Last-Modified, Etag and
Content-Length from the store metadata, and its body is exactly the
object's bytes. -/
theorem C1_get_found (cfg : Config) (req : Request) (st : S3State) (o : S3Object)
    (hk : s3Find st.objects (req.urlPath.drop 1) = some o) :
    (serveGetS3File cfg req ResponseWriter.init st).1.status = 200 ∧
    (serveGetS3File cfg req ResponseWriter.init st).1.getHeader "Content-Type"
      = some o.contentType ∧
    (serveGetS3File cfg req ResponseWriter.init st).1.getHeader "Last-Modified"
      = some o.lastModified ∧
    (serveGetS3File cfg req ResponseWriter.init st).1.getHeader "Etag"
      = some o.etag ∧
    (serveGetS3File cfg req ResponseWriter.init st).1.getHeader "Content-Length"
      = some (toString o.contentLength) ∧
    (serveGetS3File cfg req ResponseWriter.init st).1.body = o.body := by
  simp [serveGetS3File, s3GetObject, hk, handleHTTPException, ResponseWriter.init,
    ResponseWriter.writeHeader, ResponseWriter.setHeader, ResponseWriter.write,
    ResponseWriter.getHeader]

/-- C2 (amended): the error classification of `handleHTTPException` is
total and deterministic; `NotModified` maps to 304, `NoSuchKey` and
`NotFound` map to 404 with the quoted-path body, `MissingContentLength`
maps to 400 with the fixed body `Bad Request`, every other typed code maps
to 500 with the internal-error body whose cause clause appears exactly when
a cause is present, and a non-store error maps to 500 with the
internal-error body carrying its message. -/
theorem C2_classification (path : String) (w : ResponseWriter) (e : GoError) :
    (handleHTTPException path w (some e)).1
      = httpError w (specBodyOf path e) (specStatusOf e) := by
  cases e with
  | genericErr m => simp [handleHTTPException, specBodyOf, specStatusOf]
  | awsErr a =>
      by_cases h1 : a.code = "MissingContentLength"
      · simp [handleHTTPException, specBodyOf, specStatusOf, h1]
      · by_cases h2 : a.code = "NotModified"
        · simp [handleHTTPException, specBodyOf, specStatusOf, h1, h2]
        · by_cases h3 : a.code = "NoSuchKey" ∨ a.code = "NotFound"
          · simp [handleHTTPException, specBodyOf, specStatusOf, h1, h2, h3]
          · simp [handleHTTPException, specBodyOf, specStatusOf, h1, h2, h3]

/-- C2 counterexample: an error with code `MissingContentLength` and a
nonempty message is answered with the fixed body `Bad Request`, not with
the failure's message text as the claim states. -/
theorem C2_counterexample :
    ((handleHTTPException "k" ResponseWriter.init
        (some (GoError.awsErr ⟨"MissingContentLength",
          "You must provide the Content-Length HTTP header.", none⟩))).1.body
      = "Bad Request") ∧
    ¬ ((handleHTTPException "k" ResponseWriter.init
        (some (GoError.awsErr ⟨"MissingContentLength",
          "You must provide the Content-Length HTTP header.", none⟩))).1.body
      = "You must provide the Content-Length HTTP header.") := by
  decide

/-- C5: an empty or directory-like candidate with an empty configured
default index name yields status 400 with body `Path must be provided`,
with the store untouched and no store call issued. -/
theorem C5_empty_path (cfg : Config) (req : Request) (st : S3State)
    (hd : req.urlPath.drop 1 = "" ∨ (req.urlPath.drop 1).takeRight 1 = "/")
    (hh : cfg.homepage = "") :
    methodHandler cfg req ResponseWriter.init st
      = (httpError ResponseWriter.init "Path must be provided" 400, st) ∧
    (methodHandler cfg req ResponseWriter.init st).1.status = 400 ∧
    (methodHandler cfg req ResponseWriter.init st).1.body = "Path must be provided" ∧
    (methodHandler cfg req ResponseWriter.init st).2.calls = st.calls := by
  have hmain : methodHandler cfg req ResponseWriter.init st
      = (httpError ResponseWriter.init "Path must be provided" 400, st) := by
    simp only [methodHandler]
    rw [if_pos hd, if_pos hh]
  refine ⟨hmain, ?_, ?_, ?_⟩ <;> rw [hmain] <;>
    simp [httpError, ResponseWriter.setHeader, ResponseWriter.writeHeader,
      ResponseWriter.write, ResponseWriter.init]

/-- A concrete configuration used by the C7 counterexample. -/
def cexPutCfg : Config :=
  { port := "8000", s3bucket := "b", awsRegion := "r", homepage := "" }

/-- A concrete PUT request whose key contains a double separator, so the
redirect target is not clean. -/
def exPutSlashReq : Request :=
  { method := "PUT", urlPath := "/a//b", headers := [], body := Except.ok "B" }

/-- C7 counterexample: a successful PUT on key `a//b` issues the put call
against that raw key, but the Location header is the path-cleaned `/a/b`,
not the separator followed by the key, because `http.Redirect` applies
`path.Clean` to the target. -/
theorem C7_counterexample :
    ((servePutS3File cexPutCfg exPutSlashReq ResponseWriter.init
        { objects := [], calls := [] }).2.calls
      = [StoreCall.putOp "b" "a//b" "B"]) ∧
    ((servePutS3File cexPutCfg exPutSlashReq ResponseWriter.init
        { objects := [], calls := [] }).1.getHeader "Location"
      = some "/a/b") ∧
    ¬ ((servePutS3File cexPutCfg exPutSlashReq ResponseWriter.init
        { objects := [], calls := [] }).1.getHeader "Location"
      = some ("/" ++ "a//b")) := by
  decide

/-- C7 (amended): a successful PUT responds with status 201, an ETag
header carrying the store-returned version tag, a Location header equal to
the redirect target `http.Redirect` computes for the separator followed by
the resolved key (the path-cleaned target with trailing separator
preserved, query part split off and reattached, non-ASCII bytes escaped;
equal to the separator followed by the key whenever the key is already
clean), and no body. -/
theorem C7_put_created (cfg : Config) (req : Request) (st : S3State) (b : String)
    (hb : req.body = Except.ok b) :
    (servePutS3File cfg req ResponseWriter.init st).1.status = 201 ∧
    (servePutS3File cfg req ResponseWriter.init st).1.getHeader "ETag"
      = some (s3ComputeEtag b) ∧
    (servePutS3File cfg req ResponseWriter.init st).1.getHeader "Location"
      = some (redirectLocation ("/" ++ req.urlPath.drop 1)) ∧
    (servePutS3File cfg req ResponseWriter.init st).1.body = "" := by
  simp [servePutS3File, hb, s3PutObject, handleHTTPException, httpRedirect,
    ResponseWriter.init, ResponseWriter.setHeader, ResponseWriter.writeHeader,
    ResponseWriter.getHeader]

/-- C8: a PUT whose body read fails locally is classified as an internal
error (status 500) and the backing store is left untouched, with no put
call issued. -/
theorem C8_put_body_read_failure (cfg : Config) (req : Request) (st : S3State)
    (msg : String) (hb : req.body = Except.error msg) :
    servePutS3File cfg req ResponseWriter.init st
      = (httpError ResponseWriter.init ("An internal error occurred: " ++ msg) 500, st) ∧
    (servePutS3File cfg req ResponseWriter.init st).1.status = 500 ∧
    (servePutS3File cfg req ResponseWriter.init st).2 = st := by
  have hmain : servePutS3File cfg req ResponseWriter.init st
      = (httpError ResponseWriter.init ("An internal error occurred: " ++ msg) 500, st) := by
    simp [servePutS3File, hb, handleHTTPException]
  refine ⟨hmain, ?_, ?_⟩
  · rw [hmain]
    exact httpError_status ResponseWriter.init _ 500 rfl
  · rw [hmain]

/-- C10: `handleHTTPException` returns its error argument unchanged, writes
nothing on a `nil` error, and on a non-`nil` error writes exactly one error
response to the original writer. -/
theorem C10_exception_handler_contract (path : String) (w : ResponseWriter)
    (err : Option GoError) :
    (handleHTTPException path w err).2 = err ∧
    (err = none → (handleHTTPException path w err).1 = w) ∧
    (∀ e, err = some e →
      ∃ msg code, (handleHTTPException path w err).1 = httpError w msg code) := by
  cases err with
  | none => exact ⟨rfl, fun _ => rfl, fun e he => nomatch he⟩
  | some e =>
      refine ⟨?_, fun h => Option.noConfusion h, ?_⟩
      · cases e with
        | awsErr a => simp [handleHTTPException]
        | genericErr m => simp [handleHTTPException]
      · intro e2 _
        cases e with
        | genericErr m =>
            exact ⟨"An internal error occurred: " ++ m, 500, by simp [handleHTTPException]⟩
        | awsErr a =>
            by_cases h1 : a.code = "MissingContentLength"
            · exact ⟨"Bad Request", 400, by simp [handleHTTPException, h1]⟩
            · by_cases h2 : a.code = "NotModified"
              · exact ⟨"Object not modified", 304, by simp [handleHTTPException, h1, h2]⟩
              · by_cases h3 : a.code = "NoSuchKey" ∨ a.code = "NotFound"
                · exact ⟨"Path \x27" ++ path ++ "\x27 not found: " ++ a.message, 404,
                    by simp [handleHTTPException, h1, h2, h3]⟩
                · exact ⟨"An internal error occurred: " ++ a.code ++ " = " ++ a.message ++
                    (match a.origErr with
                     | some c => " (Cause: " ++ c ++ ")"
                     | none => ""), 500, by simp [handleHTTPException, h1, h2, h3]⟩

/-- Every store call issued by the method switch addresses the stripped
request path, whichever method is dispatched. -/
theorem dispatch_calls_key (cfg : Config) (r : Request) (w : ResponseWriter) (s : S3State) :
    ∀ c, c ∈ (dispatchMethod cfg r w s).2.calls →
      c ∈ s.calls ∨ StoreCall.key c = r.urlPath.drop 1 := by
  intro c hc
  by_cases hg : r.method = "GET"
  · simp only [dispatchMethod] at hc
    rw [if_pos hg, serveGet_calls] at hc
    rcases List.mem_append.1 hc with h | h
    · exact Or.inl h
    · rw [List.mem_singleton.1 h]
      exact Or.inr rfl
  · by_cases hp : r.method = "PUT"
    · simp only [dispatchMethod] at hc
      rw [if_neg hg, if_pos hp] at hc
      exact servePut_calls_key cfg r w s c hc
    · by_cases hdel : r.method = "DELETE"
      · simp only [dispatchMethod] at hc
        rw [if_neg hg, if_neg hp, if_pos hdel, serveDelete_calls] at hc
        rcases List.mem_append.1 hc with h | h
        · exact Or.inl h
        · rw [List.mem_singleton.1 h]
          exact Or.inr rfl
      · by_cases hh : r.method = "HEAD"
        · simp only [dispatchMethod] at hc
          rw [if_neg hg, if_neg hp, if_neg hdel, if_pos hh, serveHead_calls] at hc
          rcases List.mem_append.1 hc with h | h
          · exact Or.inl h
          · rw [List.mem_singleton.1 h]
            exact Or.inr rfl
        · simp only [dispatchMethod] at hc
          rw [if_neg hg, if_neg hp, if_neg hdel, if_neg hh] at hc
          exact Or.inl hc

/-- A concrete stored object used by the C3 counterexample. -/
def cexObj : S3Object :=
  { body := "x", contentType := "t", contentLength := 1,
    lastModified := "L", etag := "abc" }

/-- A concrete store holding `cexObj` under key `f`. -/
def cexStore : S3State := { objects := [("f", cexObj)], calls := [] }

/-- A concrete configuration with an empty default index name. -/
def cexCfg : Config :=
  { port := "8000", s3bucket := "b", awsRegion := "r", homepage := "" }

/-- A concrete HEAD request carrying the standard `If-None-Match` header
whose value equals the stored ETag. -/
def cexHeadReq : Request :=
  { method := "HEAD", urlPath := "/f",
    headers := [("If-None-Match", "abc")], body := Except.ok "" }

/-- C3 counterexample: a HEAD request carrying the standard conditional
header `If-None-Match` with the stored object's exact ETag still issues a
head call with no conditional token and is answered 200, because the code
reads the token from a request header named `ETag` instead. -/
theorem C3_counterexample :
    ((serveHeadS3File cexCfg cexHeadReq ResponseWriter.init cexStore).2.calls
      = [StoreCall.headOp "b" "f" none]) ∧
    ((serveHeadS3File cexCfg cexHeadReq ResponseWriter.init cexStore).1.status = 200) := by
  decide

/-- C3 (amended): for every HEAD request, the conditional-match token is
taken from the request's `ETag` header and passed to the backing store's
head operation, and when the store reports the object unchanged the
response is a NotModified failure (status 304). -/
theorem C3_head_conditional (cfg : Config) (req : Request) (st : S3State) (o : S3Object)
    (hk : s3Find st.objects (req.urlPath.drop 1) = some o)
    (he : headerGet req.headers "ETag" = o.etag)
    (hne : ¬ o.etag = "") :
    (serveHeadS3File cfg req ResponseWriter.init st).2.calls
      = st.calls ++ [StoreCall.headOp cfg.s3bucket (req.urlPath.drop 1)
          (some (headerGet req.headers "ETag"))] ∧
    (serveHeadS3File cfg req ResponseWriter.init st).1.status = 304 ∧
    (serveHeadS3File cfg req ResponseWriter.init st).1.body = "Object not modified" := by
  have hzne : ¬ headerGet req.headers "ETag" = "" := by
    rw [he]
    exact hne
  have h304 : (serveHeadS3File cfg req ResponseWriter.init st).1
      = httpError ResponseWriter.init "Object not modified" 304 := by
    simp [serveHeadS3File, s3HeadObject, hk, he, hne, handleHTTPException]
  refine ⟨?_, ?_, ?_⟩
  · rw [serveHead_calls, if_neg hzne]
  · rw [h304]
    exact httpError_status ResponseWriter.init _ 304 rfl
  · rw [h304]
    simp [httpError, ResponseWriter.setHeader, ResponseWriter.writeHeader,
      ResponseWriter.write, ResponseWriter.init]

/-- C4: for every request path that is empty after stripping the leading
separator or ends in a separator, with a non-empty configured default index
name, the resolved storage key is the stripped candidate concatenated with
the default index name, the fallback flag is set, and the store operation
is issued against that fallback key (shown for every method, and shown to
be the get call for GET). -/
theorem C4_fallback (cfg : Config) (req : Request) (st : S3State) (p : String)
    (hp : req.urlPath = "/" ++ p)
    (hd : req.urlPath.drop 1 = "" ∨ (req.urlPath.drop 1).takeRight 1 = "/")
    (hh : ¬ cfg.homepage = "") :
    resolvePath req.urlPath cfg.homepage
      = Except.ok (req.urlPath.drop 1 ++ cfg.homepage, true) ∧
    (∀ c, c ∈ (methodHandler cfg req ResponseWriter.init st).2.calls →
      c ∈ st.calls ∨ StoreCall.key c = req.urlPath.drop 1 ++ cfg.homepage) ∧
    (req.method = "GET" →
      (methodHandler cfg req ResponseWriter.init st).2.calls
        = st.calls ++ [StoreCall.getOp cfg.s3bucket (req.urlPath.drop 1 ++ cfg.homepage)]) := by
  have hkey : (req.urlPath ++ cfg.homepage).drop 1 = req.urlPath.drop 1 ++ cfg.homepage := by
    rw [hp, drop_one_slash_append, drop_one_slash]
  have hmh : methodHandler cfg req ResponseWriter.init st
      = dispatchMethod cfg { req with urlPath := req.urlPath ++ cfg.homepage }
          ResponseWriter.init st := by
    simp only [methodHandler]
    rw [if_pos hd, if_neg hh]
  refine ⟨?_, ?_, ?_⟩
  · simp only [resolvePath]
    rw [if_pos hd, if_neg hh, hkey]
  · intro c hc
    rw [hmh] at hc
    have := dispatch_calls_key cfg { req with urlPath := req.urlPath ++ cfg.homepage }
      ResponseWriter.init st c hc
    simpa [hkey] using this
  · intro hg
    rw [hmh]
    simp only [dispatchMethod]
    rw [if_pos hg, serveGet_calls]
    simp [hkey]

/-- C6 counterexample: a PATCH request (unsupported method) on the bare
separator path with an empty default index name is answered 400, not 405,
so the unsupported-method claim does not hold for every request. -/
theorem C6_counterexample :
    ((methodHandler cexCfg
        { method := "PATCH", urlPath := "/", headers := [], body := Except.ok "" }
        ResponseWriter.init { objects := [], calls := [] }).1.status = 400) ∧
    ¬ ((methodHandler cexCfg
        { method := "PATCH", urlPath := "/", headers := [], body := Except.ok "" }
        ResponseWriter.init { objects := [], calls := [] }).1.status = 405) := by
  decide

/-- C6 (amended): for every request whose method is not one of GET, HEAD,
PUT, DELETE and whose path resolution does not fail (the stripped path is
neither empty nor directory-like, or the default index name is non-empty),
the response is status 405 with the method-not-supported message, the store
is untouched and no store call is issued. -/
theorem C6_unsupported_method (cfg : Config) (req : Request) (st : S3State)
    (hm : ¬ req.method ∈ (["GET", "PUT", "DELETE", "HEAD"] : List String))
    (hok : ¬ ((req.urlPath.drop 1 = "" ∨ (req.urlPath.drop 1).takeRight 1 = "/")
        ∧ cfg.homepage = "")) :
    methodHandler cfg req ResponseWriter.init st
      = (httpError ResponseWriter.init ("Method " ++ req.method ++ " not supported") 405, st) ∧
    (methodHandler cfg req ResponseWriter.init st).1.status = 405 ∧
    (methodHandler cfg req ResponseWriter.init st).2 = st := by
  have h1 : ¬ req.method = "GET" := fun h => hm (by simp [h])
  have h2 : ¬ req.method = "PUT" := fun h => hm (by simp [h])
  have h3 : ¬ req.method = "DELETE" := fun h => hm (by simp [h])
  have h4 : ¬ req.method = "HEAD" := fun h => hm (by simp [h])
  have hdm : ∀ r2 : Request, r2.method = req.method →
      dispatchMethod cfg r2 ResponseWriter.init st
        = (httpError ResponseWriter.init
            ("Method " ++ req.method ++ " not supported") 405, st) := by
    intro r2 hr
    simp only [dispatchMethod, hr]
    rw [if_neg h1, if_neg h2, if_neg h3, if_neg h4]
  have hmain : methodHandler cfg req ResponseWriter.init st
      = (httpError ResponseWriter.init
          ("Method " ++ req.method ++ " not supported") 405, st) := by
    simp only [methodHandler]
    by_cases hdir : req.urlPath.drop 1 = "" ∨ (req.urlPath.drop 1).takeRight 1 = "/"
    · rw [if_pos hdir]
      have hh : ¬ cfg.homepage = "" := fun h => hok ⟨hdir, h⟩
      rw [if_neg hh]
      exact hdm _ rfl
    · rw [if_neg hdir]
      exact hdm _ rfl
  refine ⟨hmain, ?_, ?_⟩
  · rw [hmain]
    exact httpError_status ResponseWriter.init _ 405 rfl
  · rw [hmain]

/-- C9: path resolution precedes method dispatch: a request with an
unsupported method whose path is empty or directory-like while the default
index name is empty is answered 400 with body `Path must be provided`, not
405, with no store call issued. -/
theorem C9_resolution_precedes_dispatch (cfg : Config) (req : Request) (st : S3State)
    (_hm : ¬ req.method ∈ (["GET", "PUT", "DELETE", "HEAD"] : List String))
    (hd : req.urlPath.drop 1 = "" ∨ (req.urlPath.drop 1).takeRight 1 = "/")
    (hh : cfg.homepage = "") :
    (methodHandler cfg req ResponseWriter.init st).1.status = 400 ∧
    (methodHandler cfg req ResponseWriter.init st).1.body = "Path must be provided" ∧
    ¬ ((methodHandler cfg req ResponseWriter.init st).1.status = 405) ∧
    (methodHandler cfg req ResponseWriter.init st).2.calls = st.calls := by
  have hmain : methodHandler cfg req ResponseWriter.init st
      = (httpError ResponseWriter.init "Path must be provided" 400, st) := by
    simp only [methodHandler]
    rw [if_pos hd, if_pos hh]
  refine ⟨?_, ?_, ?_, ?_⟩ <;> rw [hmain] <;>
    simp [httpError, ResponseWriter.setHeader, ResponseWriter.writeHeader,
      ResponseWriter.write, ResponseWriter.init]

/-! ### Concrete example values and witnesses -/

/-- A concrete stored object. -/
def exObj : S3Object :=
  { body := "hello", contentType := "text/plain", contentLength := 5,
    lastModified := "Mon", etag := "abc" }

/-- A concrete store holding `exObj` under key `report.txt`. -/
def exSt : S3State := { objects := [("report.txt", exObj)], calls := [] }

/-- A concrete configuration with default index name `index.html`. -/
def exCfg : Config :=
  { port := "8000", s3bucket := "bkt", awsRegion := "eu-west-1", homepage := "index.html" }

/-- A concrete configuration with an empty default index name. -/
def exCfgNoHome : Config :=
  { port := "8000", s3bucket := "bkt", awsRegion := "eu-west-1", homepage := "" }

/-- A concrete GET request for the stored key. -/
def exGetReq : Request :=
  { method := "GET", urlPath := "/report.txt", headers := [], body := Except.ok "" }

/-- A concrete HEAD request whose `ETag` header equals the stored ETag. -/
def exHeadReq : Request :=
  { method := "HEAD", urlPath := "/report.txt",
    headers := [("ETag", "abc")], body := Except.ok "" }

/-- A concrete directory-like GET request. -/
def exDirReq : Request :=
  { method := "GET", urlPath := "/dir/", headers := [], body := Except.ok "" }

/-- A concrete unsupported-method request with a regular path. -/
def exPatchReq : Request :=
  { method := "PATCH", urlPath := "/x", headers := [], body := Except.ok "" }

/-- A concrete unsupported-method request on the bare separator path. -/
def exPatchRootReq : Request :=
  { method := "PATCH", urlPath := "/", headers := [], body := Except.ok "" }

/-- A concrete PUT request with a successfully read body. -/
def exPutReq : Request :=
  { method := "PUT", urlPath := "/new.txt", headers := [], body := Except.ok "B" }

/-- A concrete PUT request whose body read fails locally. -/
def exPutFailReq : Request :=
  { method := "PUT", urlPath := "/new.txt", headers := [],
    body := Except.error "read failed" }

/-- Witness for C1 at a concrete request and store. -/
theorem C1_witness :
    (serveGetS3File exCfgNoHome exGetReq ResponseWriter.init exSt).1.status = 200 ∧
    (serveGetS3File exCfgNoHome exGetReq ResponseWriter.init exSt).1.getHeader "Content-Type"
      = some exObj.contentType ∧
    (serveGetS3File exCfgNoHome exGetReq ResponseWriter.init exSt).1.getHeader "Last-Modified"
      = some exObj.lastModified ∧
    (serveGetS3File exCfgNoHome exGetReq ResponseWriter.init exSt).1.getHeader "Etag"
      = some exObj.etag ∧
    (serveGetS3File exCfgNoHome exGetReq ResponseWriter.init exSt).1.getHeader "Content-Length"
      = some (toString exObj.contentLength) ∧
    (serveGetS3File exCfgNoHome exGetReq ResponseWriter.init exSt).1.body = exObj.body :=
  C1_get_found exCfgNoHome exGetReq exSt exObj (by decide)

/-- Witness for the amended C3 at a concrete request and store. -/
theorem C3_witness :
    (serveHeadS3File exCfgNoHome exHeadReq ResponseWriter.init exSt).2.calls
      = exSt.calls ++ [StoreCall.headOp exCfgNoHome.s3bucket (exHeadReq.urlPath.drop 1)
          (some (headerGet exHeadReq.headers "ETag"))] ∧
    (serveHeadS3File exCfgNoHome exHeadReq ResponseWriter.init exSt).1.status = 304 ∧
    (serveHeadS3File exCfgNoHome exHeadReq ResponseWriter.init exSt).1.body
      = "Object not modified" :=
  C3_head_conditional exCfgNoHome exHeadReq exSt exObj (by decide) (by decide) (by decide)

/-- Witness for C4 at a concrete directory-like GET request. -/
theorem C4_witness :
    resolvePath exDirReq.urlPath exCfg.homepage
      = Except.ok (exDirReq.urlPath.drop 1 ++ exCfg.homepage, true) ∧
    (methodHandler exCfg exDirReq ResponseWriter.init exSt).2.calls
      = exSt.calls ++ [StoreCall.getOp exCfg.s3bucket
          (exDirReq.urlPath.drop 1 ++ exCfg.homepage)] :=
  ⟨(C4_fallback exCfg exDirReq exSt "dir/" (by decide) (by decide) (by decide)).1,
   (C4_fallback exCfg exDirReq exSt "dir/" (by decide) (by decide) (by decide)).2.2 rfl⟩

/-- Witness for C5 at a concrete directory-like GET request with an empty
default index name. -/
theorem C5_witness :
    methodHandler exCfgNoHome exDirReq ResponseWriter.init exSt
      = (httpError ResponseWriter.init "Path must be provided" 400, exSt) ∧
    (methodHandler exCfgNoHome exDirReq ResponseWriter.init exSt).1.status = 400 ∧
    (methodHandler exCfgNoHome exDirReq ResponseWriter.init exSt).1.body
      = "Path must be provided" ∧
    (methodHandler exCfgNoHome exDirReq ResponseWriter.init exSt).2.calls = exSt.calls :=
  C5_empty_path exCfgNoHome exDirReq exSt (by decide) rfl

/-- Witness for the amended C6 at a concrete PATCH request. -/
theorem C6_witness :
    methodHandler exCfgNoHome exPatchReq ResponseWriter.init exSt
      = (httpError ResponseWriter.init
          ("Method " ++ exPatchReq.method ++ " not supported") 405, exSt) ∧
    (methodHandler exCfgNoHome exPatchReq ResponseWriter.init exSt).1.status = 405 ∧
    (methodHandler exCfgNoHome exPatchReq ResponseWriter.init exSt).2 = exSt :=
  C6_unsupported_method exCfgNoHome exPatchReq exSt (by decide) (by decide)

/-- Witness for the amended C7 at a concrete PUT request, whose clean key
makes the redirect target the separator followed by the key. -/
theorem C7_witness :
    ((servePutS3File exCfgNoHome exPutReq ResponseWriter.init exSt).1.status = 201 ∧
     (servePutS3File exCfgNoHome exPutReq ResponseWriter.init exSt).1.getHeader "ETag"
       = some (s3ComputeEtag "B") ∧
     (servePutS3File exCfgNoHome exPutReq ResponseWriter.init exSt).1.getHeader "Location"
       = some (redirectLocation ("/" ++ exPutReq.urlPath.drop 1)) ∧
     (servePutS3File exCfgNoHome exPutReq ResponseWriter.init exSt).1.body = "") ∧
    redirectLocation ("/" ++ exPutReq.urlPath.drop 1) = "/new.txt" :=
  ⟨C7_put_created exCfgNoHome exPutReq exSt "B" rfl, by decide⟩

/-- Witness for C8 at a concrete PUT request with a failing body read. -/
theorem C8_witness :
    servePutS3File exCfgNoHome exPutFailReq ResponseWriter.init exSt
      = (httpError ResponseWriter.init
          ("An internal error occurred: " ++ "read failed") 500, exSt) ∧
    (servePutS3File exCfgNoHome exPutFailReq ResponseWriter.init exSt).1.status = 500 ∧
    (servePutS3File exCfgNoHome exPutFailReq ResponseWriter.init exSt).2 = exSt :=
  C8_put_body_read_failure exCfgNoHome exPutFailReq exSt "read failed" rfl

/-- Witness for C9 at a concrete PATCH request on the bare separator path. -/
theorem C9_witness :
    (methodHandler exCfgNoHome exPatchRootReq ResponseWriter.init exSt).1.status = 400 ∧
    (methodHandler exCfgNoHome exPatchRootReq ResponseWriter.init exSt).1.body
      = "Path must be provided" ∧
    ¬ ((methodHandler exCfgNoHome exPatchRootReq ResponseWriter.init exSt).1.status = 405) ∧
    (methodHandler exCfgNoHome exPatchRootReq ResponseWriter.init exSt).2.calls = exSt.calls :=
  C9_resolution_precedes_dispatch exCfgNoHome exPatchRootReq exSt (by decide) (by decide) rfl

/-- Witness for C10 at a `nil` error and at a concrete non-store error. -/
theorem C10_witness :
    ((handleHTTPException "k" ResponseWriter.init none).1 = ResponseWriter.init) ∧
    (∃ msg code, (handleHTTPException "k" ResponseWriter.init
        (some (GoError.genericErr "boom"))).1 = httpError ResponseWriter.init msg code) :=
  ⟨(C10_exception_handler_contract "k" ResponseWriter.init none).2.1 rfl,
   (C10_exception_handler_contract "k" ResponseWriter.init
       (some (GoError.genericErr "boom"))).2.2 (GoError.genericErr "boom") rfl⟩

end S3WebServer
